import Mathlib

/-!
Verification of the Mole db-sync manager (`app/db-sync/sync_manager.py`)
against its natural-language specification.

The embedding models the `DatabaseSync` class: configuration dictionaries
become structures whose fields are the dictionary entries the code reads
(`Option` marks an entry that may be absent, mirroring `dict.get` with a
default), external subprocess invocations become inputs carried by a
`SyncEnv` record, and the JSON status file becomes an association list
from job name to status entry.  Operations that can raise in Python are
modelled in `Except String`; a handler (`try/except`) becomes a `match`
on the `Except` value.
-/

set_option maxRecDepth 4096

namespace MoleSync

/-! ## Data model: configuration dictionaries -/

/-- Schedule sub-dictionary of a connection (`connection.get("schedule", \x7b\x7d)`).
Each field models one key the code reads; `none` means the key is absent. -/
structure ScheduleConfig where
  frequency : Option String
  time : Option String
  days : Option (List Nat)
  day : Option Nat
  custom : Option String
deriving Repr, DecidableEq

/-- The all-absent schedule dictionary, the default for a missing "schedule" key. -/
def ScheduleConfig.empty : ScheduleConfig := ⟨none, none, none, none, none⟩

/-- Source or target endpoint dictionary.  `dbtype` models the "type" key;
the remaining fields are the keys read when building the script command. -/
structure Endpoint where
  dbtype : Option String
  host : Option String
  port : Option Nat
  user : Option String
  password : Option String
  database : Option String
deriving Repr, DecidableEq

/-- The empty endpoint dictionary (all keys absent). -/
def Endpoint.empty : Endpoint := ⟨none, none, none, none, none, none⟩

/-- Options dictionary of a connection; fields are the values produced by the
corresponding `options.get(key, default)` calls in the sync functions. -/
structure SyncOptions where
  tables_only : List String
  tables_exclude : List String
  structure_only : Bool
  drop_target_first : Bool
deriving Repr, DecidableEq

/-- Default options (every `options.get` falls back to its default). -/
def SyncOptions.empty : SyncOptions := ⟨[], [], false, false⟩

/-- One connection dictionary from the `sync.connections` list of the YAML
configuration, with the keys `_setup_connection_job` and `_run_sync` read. -/
structure ConnDict where
  name : Option String
  enabled : Option Bool
  schedule : ScheduleConfig
  run_on_startup : Option Bool
  source : Endpoint
  target : Endpoint
  options : SyncOptions
deriving Repr, DecidableEq

/-- Display name of a connection: `connection.get("name", "Unnamed")`. -/
def connNameOf (c : ConnDict) : String := c.name.getD "Unnamed"

/-- ASCII lower-casing of one character, as Python `str.lower` acts on the
ASCII engine-type strings the code compares against. -/
def charToLower (c : Char) : Char :=
  if 65 ≤ c.toNat ∧ c.toNat ≤ 90 then Char.ofNat (c.toNat + 32) else c

/-- Python `s.lower()` on the character list of a string. -/
def strToLower (s : String) : String := String.mk (s.data.map charToLower)

/-- Decidable equality on `Except`, used to evaluate the model on concrete
inputs. -/
instance {ε α : Type} [DecidableEq ε] [DecidableEq α] : DecidableEq (Except ε α) := fun a b =>
  match a, b with
  | .ok x, .ok y =>
    if h : x = y then .isTrue (by rw [h]) else .isFalse (by intro hc; cases hc; exact h rfl)
  | .error x, .error y =>
    if h : x = y then .isTrue (by rw [h]) else .isFalse (by intro hc; cases hc; exact h rfl)
  | .ok _, .error _ => .isFalse (by intro hc; cases hc)
  | .error _, .ok _ => .isFalse (by intro hc; cases hc)

/-! ## Run ledger: the JSON status file -/

/-- One value of the status dictionary written by `_update_sync_status`:
`\x7b"status": ..., "last_run": datetime.now().isoformat(), "message": ...\x7d`.
Timestamps are modelled as abstract `Nat` instants. -/
structure StatusEntry where
  status : String
  last_run : Nat
  message : String
deriving Repr, DecidableEq

/-- Contents of `/app/logs/sync_status.json`: a JSON object keyed by job name,
modelled as an association list with at most one binding per key. -/
abbrev StatusFile := List (String × StatusEntry)

/-- Dictionary update `statuses[name] = entry`: replace the binding for `name`
if present (keeping its position), otherwise append a new binding. -/
def setKey (file : StatusFile) (name : String) (entry : StatusEntry) : StatusFile :=
  match file with
  | [] => [(name, entry)]
  | (k, v) :: rest => if k = name then (name, entry) :: rest else (k, v) :: setKey rest name entry

/-- Lookup of a key in the status dictionary. -/
def lookupKey (file : StatusFile) (name : String) : Option StatusEntry :=
  match file with
  | [] => none
  | (k, v) :: rest => if k = name then some v else lookupKey rest name

/-- Body of the `try` block of `_update_sync_status`: load the existing
statuses, set `statuses[name]`, and save the file.  Any I/O failure while
reading or writing raises, modelled by the `writeOk` flag being false. -/
def update_sync_status_raw (writeOk : Bool) (file : StatusFile)
    (name status message : String) (now : Nat) : Except String StatusFile :=
  if writeOk then .ok (setKey file name ⟨status, now, message⟩) else .error "Error updating sync status"

/-- Full `_update_sync_status`: the `except` clause catches any exception from
the raw body, logs it, and leaves the status file as it was. -/
def update_sync_status (writeOk : Bool) (file : StatusFile)
    (name status message : String) (now : Nat) : StatusFile :=
  match update_sync_status_raw writeOk file name status message now with
  | .ok file2 => file2
  | .error _ => file

/-! ## Engine-specific sync functions

Each `_sync_*` helper shells out to an external tool; the outcome of that
subprocess is an input of the model (`ProcResult`).  A non-zero return code
makes the helper raise `Exception(...)`, modelled as `Except.error` carrying
`str(e)`. -/

/-- Captured outcome of `subprocess.run` on a sync script. -/
structure ProcResult where
  returncode : Int
  stderr : String
deriving Repr, DecidableEq

/-- External-world inputs of one `_run_sync` invocation: the results the two
scripts would produce if invoked, whether the status-file write succeeds, and
the current time. -/
structure SyncEnv where
  mysqlScript : ProcResult
  pgScript : ProcResult
  statusWriteOk : Bool
  now : Nat
deriving Repr, DecidableEq

/-- Argument list passed to `mysql_sync.sh` / `postgresql_sync.sh` (after the
script path), as assembled by `_sync_mysql_to_mysql` and
`_sync_postgresql_to_postgresql` with their per-engine defaults. -/
def scriptArgs (defaultPort : Nat) (defaultUser : String)
    (source target : Endpoint) (op : SyncOptions) : List String :=
  [source.host.getD "localhost", toString (source.port.getD defaultPort),
   source.user.getD defaultUser, source.password.getD "", source.database.getD "",
   target.host.getD "localhost", toString (target.port.getD defaultPort),
   target.user.getD defaultUser, target.password.getD "", target.database.getD "",
   String.intercalate "," op.tables_only, String.intercalate "," op.tables_exclude,
   if op.structure_only then "true" else "false",
   if op.drop_target_first then "true" else "false"]

/-- Sync `_sync_mysql_to_mysql`: runs `mysql_sync.sh`; raises
`Exception("MySQL sync failed: " + stderr)` when the script exits non-zero. -/
def sync_mysql_to_mysql (r : ProcResult) : Except String Unit :=
  if r.returncode ≠ 0 then .error ("MySQL sync failed: " ++ r.stderr) else .ok ()

/-- Sync `_sync_postgresql_to_postgresql`: runs `postgresql_sync.sh`; raises
`Exception("PostgreSQL sync failed: " + stderr)` on non-zero exit. -/
def sync_postgresql_to_postgresql (r : ProcResult) : Except String Unit :=
  if r.returncode ≠ 0 then .error ("PostgreSQL sync failed: " ++ r.stderr) else .ok ()

/-- Sync `_sync_influxdb_to_influxdb`: always raises
`NotImplementedError("InfluxDB sync not fully implemented yet")`. -/
def sync_influxdb_to_influxdb : Except String Unit :=
  .error "InfluxDB sync not fully implemented yet"

/-- Sync `_sync_generic` for mismatched engine pairs: always raises
`NotImplementedError` naming the two raw lowered types. -/
def sync_generic (source target : Endpoint) : Except String Unit :=
  .error ("Generic sync from " ++ strToLower (source.dbtype.getD "") ++ " to "
    ++ strToLower (target.dbtype.getD "") ++ " not fully implemented yet")

/-! ## The Sync Executor: `_run_sync` -/

/-- Engine type strings accepted by the validation in `_run_sync`. -/
def supportedTypes : List String := ["mysql", "postgresql", "postgres", "influxdb"]

/-- Normalization of "postgres" to "postgresql" performed by `_run_sync`. -/
def normType (t : String) : String := if t = "postgres" then "postgresql" else t

/-- Classification of how one `_run_sync` invocation ends. -/
inductive RunOutcome where
  /-- Early return: missing source or target type; nothing written. -/
  | invalidMissing
  /-- Early return: source or target type not in the supported list; nothing written. -/
  | invalidUnsupported
  /-- The dispatched sync raised; an error status with the message was recorded. -/
  | wroteError (msg : String)
  /-- The dispatched sync returned; a success status was recorded. -/
  | wroteSuccess
deriving Repr, DecidableEq

/-- Dispatch on the normalized `(source_type, target_type)` pair, the body of
the `try` block of `_run_sync`. -/
def dispatchSync (env : SyncEnv) (sourceType targetType : String) (source target : Endpoint) :
    Except String Unit :=
  if sourceType = targetType then
    if sourceType = "mysql" then sync_mysql_to_mysql env.mysqlScript
    else if sourceType = "postgresql" then sync_postgresql_to_postgresql env.pgScript
    else if sourceType = "influxdb" then sync_influxdb_to_influxdb
    else .ok ()
  else sync_generic source target

/-- Model of `DatabaseSync._run_sync`.  Validation failures return early and
write nothing; otherwise the dispatched sync runs inside `try`, its exception
(if any) is converted to an error status write, and on success a success
status is written.  Both status writes go through `_update_sync_status`,
whose own internal handler swallows file-I/O failures.  The outer
`Except` layer records whether `_run_sync` itself raises; every path below
is `.ok`, mirroring the total handling in the code. -/
def run_sync (env : SyncEnv) (conn : ConnDict) (file : StatusFile) :
    Except String (RunOutcome × StatusFile) :=
  let name := connNameOf conn
  let sourceType0 := strToLower (conn.source.dbtype.getD "")
  let targetType0 := strToLower (conn.target.dbtype.getD "")
  if sourceType0 = "" ∨ targetType0 = "" then
    .ok (.invalidMissing, file)
  else if ¬ (sourceType0 ∈ supportedTypes ∧ targetType0 ∈ supportedTypes) then
    .ok (.invalidUnsupported, file)
  else
    let sourceType := normType sourceType0
    let targetType := normType targetType0
    match dispatchSync env sourceType targetType conn.source conn.target with
    | .error e =>
        .ok (.wroteError e, update_sync_status env.statusWriteOk file name "error" e env.now)
    | .ok () =>
        .ok (.wroteSuccess, update_sync_status env.statusWriteOk file name "success" "" env.now)

/-- Predicate mirroring the two validation checks of `_run_sync`: true exactly
when both engine types are present and on the supported list. -/
def validationOk (conn : ConnDict) : Bool :=
  let sourceType0 := strToLower (conn.source.dbtype.getD "")
  let targetType0 := strToLower (conn.target.dbtype.getD "")
  if sourceType0 = "" ∨ targetType0 = "" then false
  else if ¬ (sourceType0 ∈ supportedTypes ∧ targetType0 ∈ supportedTypes) then false
  else true


/-! ## The Job Scheduler: `_setup_connection_job`, `setup_jobs`, `_reload_config`

Line 81 binds the module-level scheduler to an APScheduler
`BackgroundScheduler`, whose API is `add_job`/`start`/`shutdown` (used
correctly for the metric collector at lines 82-86).  The `DatabaseSync`
methods instead call the schedule-library API on that object:
`scheduler.every()` (lines 160-219), `scheduler.clear()` (line 122) and
`scheduler.run_pending()` (line 554).  None of these attributes exists on a
`BackgroundScheduler`, so each such call raises `AttributeError` at the
attribute lookup, before anything is registered, removed or run.  The model
below therefore makes every schedule-library call a raising operation and
threads the scheduler registry through explicitly, so that the theorems can
state which state the registry is left in. -/

/-- Message of the `AttributeError` raised when a missing attribute of the
`BackgroundScheduler` is accessed (the actual Python text quotes the class
and attribute names). -/
def attributeError (attr : String) : String :=
  "AttributeError: BackgroundScheduler object has no attribute " ++ attr

/-- A callable that could sit in the scheduler registry.  Only
`metricCollector` is ever registered (line 82, via the real `add_job` API);
`runSyncOf conn` is the value of the line-157 lambda
`lambda: self._run_sync(connection)`, which every scheduling branch fails to
register because `scheduler.every()` raises first. -/
inductive JobClosure where
  | metricCollector
  | runSyncOf (conn : ConnDict)
deriving Repr, DecidableEq

/-- The lambda built at line 157, before any scheduling call is attempted:
it closes over the connection dictionary in scope at scheduling time. -/
def job_function (conn : ConnDict) : JobClosure := .runSyncOf conn

/-- Invoking a registry callable: the line-157 lambda calls `_run_sync` on
its captured dictionary; the metric collector does not touch the ledger. -/
def callClosure (env : SyncEnv) (c : JobClosure) (file : StatusFile) :
    Except String (Option RunOutcome × StatusFile) :=
  match c with
  | .runSyncOf conn =>
    match run_sync env conn file with
    | .ok (out, file2) => .ok (some out, file2)
    | .error e => .error e
  | .metricCollector => .ok (none, file)

/-- The `run_on_startup` epilogue of `_setup_connection_job` (lines
226-228): reached only on the branches where no `scheduler.every()` call
raised; it may run one immediate sync, whose status write changes the
ledger, and it never touches the registry. -/
def run_on_startup_check (env : SyncEnv) (conn : ConnDict)
    (registry : List JobClosure) (file : StatusFile) :
    Except String (List JobClosure × StatusFile) :=
  if conn.run_on_startup.getD false then
    match run_sync env conn file with
    | .ok (_, file2) => .ok (registry, file2)
    | .error e => .error e
  else .ok (registry, file)

/-- Model of `DatabaseSync._setup_connection_job` (lines 149-228).  The
hourly (160), daily (165) and monthly (200) branches raise `AttributeError`
at `scheduler.every()` before registering anything; the weekly branch
(172-186) raises at the first configured day that lies in 1..7 and falls
through when no configured day does; the custom branch catches the same
error inside its own `try` (lines 206-223) and registers nothing; any other
frequency (including "never") matches no branch and falls through silently.
Every non-raising path continues to the `run_on_startup` check.  No path
adds a job to the registry; the configured times and cron strings are read
by the code but never reach a trigger. -/
def setup_connection_job (env : SyncEnv) (conn : ConnDict)
    (registry : List JobClosure) (file : StatusFile) :
    Except String (List JobClosure × StatusFile) :=
  let scheduleConfig := conn.schedule
  let frequency := scheduleConfig.frequency.getD "daily"
  if frequency = "hourly" then .error (attributeError "every")
  else if frequency = "daily" then .error (attributeError "every")
  else if frequency = "weekly" then
    let days := scheduleConfig.days.getD [1]
    if days.any (fun d => decide (1 ≤ d ∧ d ≤ 7)) then .error (attributeError "every")
    else run_on_startup_check env conn registry file
  else if frequency = "monthly" then .error (attributeError "every")
  else if frequency = "custom" then run_on_startup_check env conn registry file
  else run_on_startup_check env conn registry file

/-- The `sync` section of the YAML configuration, with the keys `setup_jobs`
reads. -/
structure SyncSettings where
  enabled : Option Bool
  connections : Option (List ConnDict)
deriving Repr, DecidableEq

/-- Loop body of `setup_jobs` (lines 139-147): disabled connections are
skipped; for the others `_setup_connection_job` runs inside a `try` whose
handler logs the `AttributeError` and continues with the next connection,
leaving the registry as it was. -/
def setup_jobs_loop (env : SyncEnv) :
    List ConnDict → List JobClosure → StatusFile → List JobClosure × StatusFile
  | [], registry, file => (registry, file)
  | conn :: rest, registry, file =>
    if conn.enabled.getD false then
      match setup_connection_job env conn registry file with
      | .ok (r2, f2) => setup_jobs_loop env rest r2 f2
      | .error _ => setup_jobs_loop env rest registry file
    else setup_jobs_loop env rest registry file

/-- Model of `DatabaseSync.setup_jobs` (lines 126-147): early return when
the service is disabled or no connections are configured, otherwise the
per-connection loop.  Since no branch of `_setup_connection_job` registers
anything, the registry component of the result is always the input
registry; only the status file can change (startup runs). -/
def setup_jobs (env : SyncEnv) (cfg : SyncSettings)
    (registry : List JobClosure) (file : StatusFile) : List JobClosure × StatusFile :=
  if ¬ cfg.enabled.getD false then (registry, file)
  else
    let connections := cfg.connections.getD []
    if connections = [] then (registry, file)
    else setup_jobs_loop env connections registry file

/-- The scheduler method `clear` does not exist on the
`BackgroundScheduler`; looking it up raises `AttributeError`. -/
def scheduler_clear : Except String Unit := .error (attributeError "clear")

/-- Model of `DatabaseSync._reload_config` (lines 117-124): the
configuration is re-read (line 120), then line 122 calls
`scheduler.clear()`, which raises before removing anything; the exception
propagates out of `_reload_config` uncaught, so `setup_jobs` (line 124) is
never reached and registry and ledger are left untouched.  The `.ok` arm
(clearing the registry, then re-running setup) is unreachable. -/
def reload_config (env : SyncEnv) (cfg : SyncSettings)
    (registry : List JobClosure) (file : StatusFile) :
    Except String (List JobClosure × StatusFile) :=
  match scheduler_clear with
  | .error e => .error e
  | .ok _ => .ok (setup_jobs env cfg [] file)

/-! ## Credential Vault (modelled from the spec)

The repository source under `src/` contains no decryption code: in
`get_database_connection` the stored `encrypted_password` is passed through
with only a remark that a real implementation would decrypt it.  The
Credential Vault of spec section 4.1 is therefore modelled from the spec
text: ciphertext format `"<ivHex>:<payloadHex>"`, an IV that must decode to
exactly 16 bytes, block-cipher CBC with PKCS-style padding removal, empty
input treated as no secret, and input without a separator returned
unmodified. -/

/-- Result of the vault decrypt contract
`decrypt(ciphertext) -> PlainSecret | DecryptionError`, with the malformed-IV
failure distinguished as in the spec. -/
inductive DecryptResult where
  | plain (secret : String)
  | malformedCiphertext
  | decryptionError
deriving Repr, DecidableEq

/-- Value of a hexadecimal digit character. -/
def hexVal (c : Char) : Option Nat :=
  if '0' ≤ c ∧ c ≤ '9' then some (c.toNat - '0'.toNat)
  else if 'a' ≤ c ∧ c ≤ 'f' then some (c.toNat - 'a'.toNat + 10)
  else if 'A' ≤ c ∧ c ≤ 'F' then some (c.toNat - 'A'.toNat + 10)
  else none

/-- Decode a hex string (as a character list) into bytes; fails on an odd
length or a non-hex character. -/
def hexDecode : List Char → Option (List Nat)
  | [] => some []
  | [_] => none
  | c1 :: c2 :: rest =>
    match hexVal c1, hexVal c2, hexDecode rest with
    | some hi, some lo, some bs => some ((16 * hi + lo) :: bs)
    | _, _, _ => none

/-- Split at the first separator character: `none` when the string contains
no separator, otherwise the parts before and after it. -/
def splitFirst (sep : Char) : List Char → Option (List Char × List Char)
  | [] => none
  | c :: rest =>
    if c = sep then some ([], rest)
    else
      match splitFirst sep rest with
      | none => none
      | some (a, b) => some (c :: a, b)

/-- Byte-wise exclusive or of two equal-length byte lists. -/
def xorBytes (a b : List Nat) : List Nat := List.zipWith (fun x y => x ^^^ y) a b

/-- CBC decryption over 16-byte blocks: each plaintext block is the block
decryption of the ciphertext block xored with the previous ciphertext block
(the IV for the first). -/
def cbcDecrypt (blockDec : List Nat → List Nat) (prev ct : List Nat) : List Nat :=
  if h : ct = [] then []
  else
    xorBytes (blockDec (ct.take 16)) prev ++ cbcDecrypt blockDec (ct.take 16) (ct.drop 16)
termination_by ct.length
decreasing_by
  simp only [List.length_drop]
  have : 0 < ct.length := List.length_pos.mpr h
  omega

/-- PKCS-style padding removal: the last byte gives the pad length 1..16 and
every padding byte must equal it; anything else is a padding failure. -/
def pkcsUnpad (pt : List Nat) : Option (List Nat) :=
  match pt.getLast? with
  | none => none
  | some p =>
    if 1 ≤ p ∧ p ≤ 16 ∧ p ≤ pt.length ∧ (pt.drop (pt.length - p)).all (· = p) then
      some (pt.take (pt.length - p))
    else none

/-- Modelled from the spec: the Credential Vault `decrypt` operation, which
is missing from the source under `src/`.  It is parameterized by the block
decryption `blockDec` of the derived key (key derivation and the cipher core
are external).  Empty ciphertext is no secret; a ciphertext without the `:`
separator is returned unmodified (legacy plaintext); the IV hex must decode
to exactly 16 bytes or the result is `malformedCiphertext`; any payload
decode, length or padding failure is a `decryptionError`, never a crash. -/
def decrypt (blockDec : List Nat → List Nat) (ciphertext : String) : DecryptResult :=
  if ciphertext.data = [] then .plain ""
  else
    match splitFirst ':' ciphertext.data with
    | none => .plain ciphertext
    | some (ivHex, payloadHex) =>
      match hexDecode ivHex with
      | none => .malformedCiphertext
      | some iv =>
        if iv.length ≠ 16 then .malformedCiphertext
        else
          match hexDecode payloadHex with
          | none => .decryptionError
          | some ct =>
            if ct.length = 0 ∨ ct.length % 16 ≠ 0 then .decryptionError
            else
              match pkcsUnpad (cbcDecrypt blockDec iv ct) with
              | none => .decryptionError
              | some pt => .plain (String.mk (pt.map (fun b => Char.ofNat b)))

/-! ## Dynamic typing of the "type" entries

The `_run_sync` validation at lines 239-240 calls
`source.get("type", "").lower()` before the `try` block begins at line 259.
A connection whose endpoint dictionaries are dicts may still hold a
non-string value under "type" (for example the `None` a YAML `type:` key
produces), and `.lower()` on a non-string raises `AttributeError` that
nothing in `_run_sync` catches.  To analyse that path the "type" entries are
given their dynamic type here, while all other fields keep the scalar types
the code reads them at. -/

/-- A Python value stored under the "type" key: a string, `None`, or an
integer. -/
inductive PyVal where
  | str (s : String)
  | noneVal
  | intVal (n : Int)
deriving Repr, DecidableEq

/-- Python `value.lower()` on a dynamic value: succeeds on strings, raises
`AttributeError` on anything else (the actual Python text quotes the type
and attribute names). -/
def pyLower : PyVal → Except String String
  | .str s => .ok (strToLower s)
  | .noneVal => .error "AttributeError: NoneType object has no attribute lower"
  | .intVal _ => .error "AttributeError: int object has no attribute lower"

/-- True when the optional "type" entry is absent or holds a string. -/
def isStrTyped : Option PyVal → Bool
  | none => true
  | some (.str _) => true
  | some _ => false

/-- Endpoint dictionary with its "type" entry at the dynamic type. -/
structure EndpointDyn where
  dbtype : Option PyVal
  host : Option String
  port : Option Nat
  user : Option String
  password : Option String
  database : Option String
deriving Repr, DecidableEq

/-- Connection dictionary for the exception analysis of `_run_sync`, holding
the fields that method reads. -/
structure ConnDictDyn where
  name : Option String
  source : EndpointDyn
  target : EndpointDyn
  options : SyncOptions
deriving Repr, DecidableEq

/-- Sync `_sync_generic` over dynamic endpoints: it re-reads and lowers the
raw "type" values (lines 513-514) — inside the `try`, so a raise here would
be caught by the dispatch handler — and always raises
`NotImplementedError`. -/
def sync_generic_dyn (source target : EndpointDyn) : Except String Unit :=
  match pyLower (source.dbtype.getD (.str "")), pyLower (target.dbtype.getD (.str "")) with
  | .ok a, .ok b =>
    .error ("Generic sync from " ++ a ++ " to " ++ b ++ " not fully implemented yet")
  | .error e, _ => .error e
  | _, .error e => .error e

/-- Dispatch of `_run_sync` over dynamic endpoints; identical to
`dispatchSync` except for the generic branch. -/
def dispatchSyncDyn (env : SyncEnv) (sourceType targetType : String)
    (source target : EndpointDyn) : Except String Unit :=
  if sourceType = targetType then
    if sourceType = "mysql" then sync_mysql_to_mysql env.mysqlScript
    else if sourceType = "postgresql" then sync_postgresql_to_postgresql env.pgScript
    else if sourceType = "influxdb" then sync_influxdb_to_influxdb
    else .ok ()
  else sync_generic_dyn source target

/-- Model of `DatabaseSync._run_sync` over dynamically-typed "type" entries:
lines 239-240 lower the two values before the `try` block, so an
`AttributeError` raised there propagates out of `_run_sync`; from the
validation onwards the behavior is that of `run_sync`. -/
def run_sync_dyn (env : SyncEnv) (conn : ConnDictDyn) (file : StatusFile) :
    Except String (RunOutcome × StatusFile) :=
  match pyLower (conn.source.dbtype.getD (.str "")) with
  | .error e => .error e
  | .ok sourceType0 =>
    match pyLower (conn.target.dbtype.getD (.str "")) with
    | .error e => .error e
    | .ok targetType0 =>
      if sourceType0 = "" ∨ targetType0 = "" then .ok (.invalidMissing, file)
      else if ¬ (sourceType0 ∈ supportedTypes ∧ targetType0 ∈ supportedTypes) then
        .ok (.invalidUnsupported, file)
      else
        match dispatchSyncDyn env (normType sourceType0) (normType targetType0)
            conn.source conn.target with
        | .error e =>
          .ok (.wroteError e,
            update_sync_status env.statusWriteOk file (conn.name.getD "Unnamed") "error" e env.now)
        | .ok () =>
          .ok (.wroteSuccess,
            update_sync_status env.statusWriteOk file (conn.name.getD "Unnamed") "success" "" env.now)

/-! ## Concrete fixtures used by witnesses and counterexamples -/

/-- Environment where both scripts succeed, the status write succeeds, and
the clock reads 2. -/
def envNow2 : SyncEnv := ⟨⟨0, ""⟩, ⟨0, ""⟩, true, 2⟩

/-- Environment like `envNow2` but with the clock at 9. -/
def envNow9 : SyncEnv := ⟨⟨0, ""⟩, ⟨0, ""⟩, true, 9⟩

/-- Environment like `envNow2` but with the clock at 1. -/
def envNow1 : SyncEnv := ⟨⟨0, ""⟩, ⟨0, ""⟩, true, 1⟩

/-- Connection "A", hourly, MySQL to MySQL. -/
def connHourlyMysql : ConnDict :=
  ⟨some "A", some true, ⟨some "hourly", none, none, none, none⟩, none,
   ⟨some "mysql", none, none, none, none, none⟩,
   ⟨some "mysql", none, none, none, none, none⟩, ⟨[], [], false, false⟩⟩

/-- Connection "A", hourly, InfluxDB to InfluxDB. -/
def connInfluxA : ConnDict :=
  ⟨some "A", some true, ⟨some "hourly", none, none, none, none⟩, none,
   ⟨some "influxdb", none, none, none, none, none⟩,
   ⟨some "influxdb", none, none, none, none, none⟩, ⟨[], [], false, false⟩⟩

/-- Connection with both endpoint dictionaries missing the "type" key. -/
def connNoTypes : ConnDict :=
  ⟨some "A", some true, ⟨some "hourly", none, none, none, none⟩, none,
   Endpoint.empty, Endpoint.empty, ⟨[], [], false, false⟩⟩

/-- Connection scheduled daily at the configured time "05:00". -/
def connDaily5 : ConnDict :=
  ⟨some "A", some true, ⟨some "daily", some "05:00", none, none, none⟩, none,
   ⟨some "mysql", none, none, none, none, none⟩,
   ⟨some "mysql", none, none, none, none, none⟩, ⟨[], [], false, false⟩⟩

/-- Connection with a monthly schedule (day defaulting to 1). -/
def connMonthlyCfg : ConnDict :=
  ⟨some "A", some true, ⟨some "monthly", none, none, none, none⟩, none,
   ⟨some "mysql", none, none, none, none, none⟩,
   ⟨some "mysql", none, none, none, none, none⟩, ⟨[], [], false, false⟩⟩

/-- Connection scheduled weekly on days 1 and 2 (Monday and Tuesday). -/
def connWeekly12 : ConnDict :=
  ⟨some "A", some true, ⟨some "weekly", none, some [1, 2], none, none⟩, none,
   ⟨some "mysql", none, none, none, none, none⟩,
   ⟨some "mysql", none, none, none, none, none⟩, ⟨[], [], false, false⟩⟩

/-- Settings with the service enabled and the single weekly connection. -/
def cfgWeekly : SyncSettings := ⟨some true, some [connWeekly12]⟩

/-- Connection with frequency "never" (an unhandled frequency string). -/
def connNeverFreq : ConnDict :=
  ⟨some "A", some true, ⟨some "never", none, none, none, none⟩, none,
   ⟨some "mysql", none, none, none, none, none⟩,
   ⟨some "mysql", none, none, none, none, none⟩, ⟨[], [], false, false⟩⟩

/-- Connection "P", Postgres to Postgres (one raw type spelled "postgres"). -/
def connPgPair : ConnDict :=
  ⟨some "P", some true, ⟨some "hourly", none, none, none, none⟩, none,
   ⟨some "postgres", none, none, none, none, none⟩,
   ⟨some "postgresql", none, none, none, none, none⟩, ⟨[], [], false, false⟩⟩

/-- Dynamic connection whose source "type" entry holds `None` (the value a
YAML `type:` key with no value produces). -/
def connNoneType : ConnDictDyn :=
  ⟨some "A", ⟨some PyVal.noneVal, none, none, none, none, none⟩,
   ⟨some (PyVal.str "mysql"), none, none, none, none, none⟩, ⟨[], [], false, false⟩⟩

/-- Dynamic connection with both "type" entries holding the string "mysql". -/
def connDynMysql : ConnDictDyn :=
  ⟨some "A", ⟨some (PyVal.str "mysql"), none, none, none, none, none⟩,
   ⟨some (PyVal.str "mysql"), none, none, none, none, none⟩, ⟨[], [], false, false⟩⟩

/-! ## Helper lemmas -/

/-- Status update as a conditional: the write happens exactly when the file
operations succeed, and otherwise the handler keeps the file unchanged. -/
theorem update_sync_status_eq (b : Bool) (file : StatusFile) (n s m : String) (t : Nat) :
    update_sync_status b file n s m t = if b then setKey file n ⟨s, t, m⟩ else file := by
  cases b <;> rfl

/-- Setting the same key twice keeps only the second entry. -/
theorem setKey_setKey_same (file : StatusFile) (n : String) (e1 e2 : StatusEntry) :
    setKey (setKey file n e1) n e2 = setKey file n e2 := by
  induction file with
  | nil => simp [setKey]
  | cons kv rest ih =>
    obtain ⟨k, v⟩ := kv
    by_cases hk : k = n
    · simp [setKey, hk]
    · simp [setKey, hk, ih]

/-- Lookup of the key just set. -/
theorem lookupKey_setKey_self (file : StatusFile) (n : String) (e : StatusEntry) :
    lookupKey (setKey file n e) n = some e := by
  induction file with
  | nil => simp [setKey, lookupKey]
  | cons kv rest ih =>
    obtain ⟨k, v⟩ := kv
    by_cases hk : k = n
    · simp [setKey, hk, lookupKey]
    · simp [setKey, hk, lookupKey, ih]

/-- Setting one key does not disturb the binding of any other key. -/
theorem lookupKey_setKey_ne (file : StatusFile) (n k : String) (e : StatusEntry) (hk : k ≠ n) :
    lookupKey (setKey file n e) k = lookupKey file k := by
  induction file with
  | nil =>
    simp only [setKey, lookupKey]
    rw [if_neg (fun h => hk h.symm)]
  | cons kv rest ih =>
    obtain ⟨k2, v⟩ := kv
    by_cases h2 : k2 = n
    · subst h2
      simp [setKey, lookupKey, hk, Ne.symm hk]
    · simp [setKey, lookupKey, h2, ih]

/-- Master characterization of `_run_sync`: validation failures return the
file untouched, otherwise the dispatched result decides which single status
write happens. -/
theorem run_sync_spec (env : SyncEnv) (conn : ConnDict) (file : StatusFile) :
    run_sync env conn file =
      if validationOk conn then
        match dispatchSync env (normType (strToLower (conn.source.dbtype.getD "")))
            (normType (strToLower (conn.target.dbtype.getD ""))) conn.source conn.target with
        | .error e =>
          .ok (.wroteError e, update_sync_status env.statusWriteOk file (connNameOf conn) "error" e env.now)
        | .ok _ =>
          .ok (.wroteSuccess, update_sync_status env.statusWriteOk file (connNameOf conn) "success" "" env.now)
      else
        .ok ((if strToLower (conn.source.dbtype.getD "") = "" ∨ strToLower (conn.target.dbtype.getD "") = ""
              then RunOutcome.invalidMissing else RunOutcome.invalidUnsupported), file) := by
  by_cases h1 : strToLower (conn.source.dbtype.getD "") = "" ∨ strToLower (conn.target.dbtype.getD "") = ""
  · have hv : validationOk conn = false := by
      simp only [validationOk]
      rw [if_pos h1]
    simp only [run_sync, hv]
    rw [if_pos h1, if_pos h1]
    simp
  · by_cases h2 : strToLower (conn.source.dbtype.getD "") ∈ supportedTypes
        ∧ strToLower (conn.target.dbtype.getD "") ∈ supportedTypes
    · have hv : validationOk conn = true := by
        simp only [validationOk]
        rw [if_neg h1, if_neg (not_not_intro h2)]
      simp only [run_sync, hv]
      rw [if_neg h1, if_neg (not_not_intro h2)]
      simp only [if_true]
      rfl
    · have hv : validationOk conn = false := by
        simp only [validationOk]
        rw [if_neg h1, if_pos h2]
      simp only [run_sync, hv]
      rw [if_neg h1, if_pos h2, if_neg h1]
      simp

/-! ## Claim theorems -/

/-- Claim C1 (counterexample): a connection whose endpoint dictionaries lack
the "type" key makes `_run_sync` return with the run ledger untouched — zero
status entries are recorded, not the exactly one required by the claim for
every invocation including validation failures. -/
theorem run_sync_missing_type_writes_nothing :
    run_sync envNow2 connNoTypes [] = Except.ok (RunOutcome.invalidMissing, []) := by decide

/-- Claim C1 (amended): `_run_sync` records exactly one status entry (with a
status and a message) precisely when validation passes and the status-file
write succeeds; a validation failure (missing or unsupported engine type)
returns without writing, and a failing file write drops the record, leaving
the ledger unchanged. -/
theorem run_sync_ledger_write_characterization (env : SyncEnv) (conn : ConnDict) (file : StatusFile) :
    ∃ out entry, run_sync env conn file =
      Except.ok (out, if validationOk conn && env.statusWriteOk
                      then setKey file (connNameOf conn) entry else file) := by
  rw [run_sync_spec]
  by_cases hv : validationOk conn
  · rw [if_pos hv, hv]
    split
    · rename_i e heq
      refine ⟨.wroteError e, ⟨"error", env.now, e⟩, ?_⟩
      rw [update_sync_status_eq]
      cases hw : env.statusWriteOk <;> simp
    · refine ⟨.wroteSuccess, ⟨"success", env.now, ""⟩, ?_⟩
      rw [update_sync_status_eq]
      cases hw : env.statusWriteOk <;> simp
  · rw [if_neg hv]
    have hv2 : validationOk conn = false := by
      cases h : validationOk conn
      · rfl
      · exact absurd h hv
    refine ⟨(if strToLower (conn.source.dbtype.getD "") = "" ∨ strToLower (conn.target.dbtype.getD "") = ""
             then RunOutcome.invalidMissing else RunOutcome.invalidUnsupported), ⟨"error", 0, ""⟩, ?_⟩
    rw [hv2]
    simp

/-- Claim C3 (counterexample): two successive runs recorded under the same
job name leave a single ledger entry — the second run replaces the first
record (here an error record from time 1 is replaced by a success record
from time 2), contradicting append-only immutable run records. -/
theorem status_file_overwrites_same_name_cex :
    run_sync envNow1 connInfluxA [] =
        Except.ok (RunOutcome.wroteError "InfluxDB sync not fully implemented yet",
          [("A", ⟨"error", 1, "InfluxDB sync not fully implemented yet"⟩)])
      ∧ run_sync envNow2 connHourlyMysql
          [("A", ⟨"error", 1, "InfluxDB sync not fully implemented yet"⟩)] =
        Except.ok (RunOutcome.wroteSuccess, [("A", ⟨"success", 2, ""⟩)]) := by
  constructor <;> decide

/-- Claim C3 (amended): the status store keeps exactly the latest record per
job name — a later `_update_sync_status` for the same name replaces the
earlier entry in place, while bindings of every other name are preserved. -/
theorem update_sync_status_latest_per_name (file : StatusFile)
    (name s1 m1 s2 m2 : String) (t1 t2 : Nat) :
    update_sync_status true (update_sync_status true file name s1 m1 t1) name s2 m2 t2
        = update_sync_status true file name s2 m2 t2
      ∧ ∀ k, k ≠ name →
          lookupKey (update_sync_status true file name s1 m1 t1) k = lookupKey file k := by
  constructor
  · rw [update_sync_status_eq, update_sync_status_eq, update_sync_status_eq]
    simp [setKey_setKey_same]
  · intro k hk
    rw [update_sync_status_eq]
    simp [lookupKey_setKey_ne file name k _ hk]

/-- Witness for the amended C3 theorem at concrete inputs: overwriting the
record of "A" and preserving the record of "B". -/
theorem update_sync_status_latest_per_name_witness :
    update_sync_status true (update_sync_status true [] "A" "error" "boom" 1) "A" "success" "" 2
        = update_sync_status true [] "A" "success" "" 2
      ∧ lookupKey (update_sync_status true [("B", ⟨"success", 0, ""⟩)] "A" "error" "boom" 1) "B"
        = lookupKey [("B", ⟨"success", 0, ""⟩)] "B" :=
  ⟨(update_sync_status_latest_per_name [] "A" "error" "boom" "success" "" 1 2).1,
   (update_sync_status_latest_per_name [("B", ⟨"success", 0, ""⟩)] "A" "error" "boom" "success" "" 1 2).2
     "B" (by decide)⟩

/-- Claim C5 (counterexample): a failing run does not leave the stored
timestamp untouched — the error write replaces the previous success record
of "A" (timestamp 5) with an error record carrying the new time 9. -/
theorem failed_run_updates_last_run_cex :
    run_sync envNow9 connInfluxA [("A", ⟨"success", 5, ""⟩)] =
        Except.ok (RunOutcome.wroteError "InfluxDB sync not fully implemented yet",
          [("A", ⟨"error", 9, "InfluxDB sync not fully implemented yet"⟩)])
      ∧ lookupKey [("A", (⟨"error", 9, "InfluxDB sync not fully implemented yet"⟩ : StatusEntry))] "A"
        ≠ some ⟨"success", 5, ""⟩ := by
  constructor <;> decide

/-- Claim C5 (amended): every run that reaches dispatch and whose status-file
write succeeds sets the last-run timestamp of its entry to the current time,
for success and error outcomes alike; there is no separate last-success
timestamp that only successful runs would update. -/
theorem run_sync_last_run_timestamp (env : SyncEnv) (conn : ConnDict) (file : StatusFile)
    (hv : validationOk conn = true) (hw : env.statusWriteOk = true) :
    ∃ out entry, run_sync env conn file = Except.ok (out, setKey file (connNameOf conn) entry)
      ∧ lookupKey (setKey file (connNameOf conn) entry) (connNameOf conn) = some entry
      ∧ entry.last_run = env.now
      ∧ ((out = RunOutcome.wroteSuccess ∧ entry.status = "success")
          ∨ (∃ m, out = RunOutcome.wroteError m ∧ entry.status = "error" ∧ entry.message = m)) := by
  rw [run_sync_spec, hv, if_pos rfl]
  split
  · rename_i e heq
    refine ⟨.wroteError e, ⟨"error", env.now, e⟩, ?_, lookupKey_setKey_self _ _ _, rfl, ?_⟩
    · rw [update_sync_status_eq, hw]
      simp
    · exact Or.inr ⟨e, rfl, rfl, rfl⟩
  · refine ⟨.wroteSuccess, ⟨"success", env.now, ""⟩, ?_, lookupKey_setKey_self _ _ _, rfl, ?_⟩
    · rw [update_sync_status_eq, hw]
      simp
    · exact Or.inl ⟨rfl, rfl⟩

/-- Witness for the amended C5 theorem: a concrete failing run (InfluxDB
pair) stamps its error entry with the current time 2. -/
theorem run_sync_last_run_timestamp_witness :
    ∃ out entry, run_sync envNow2 connInfluxA []
        = Except.ok (out, setKey [] (connNameOf connInfluxA) entry)
      ∧ lookupKey (setKey [] (connNameOf connInfluxA) entry) (connNameOf connInfluxA) = some entry
      ∧ entry.last_run = envNow2.now
      ∧ ((out = RunOutcome.wroteSuccess ∧ entry.status = "success")
          ∨ (∃ m, out = RunOutcome.wroteError m ∧ entry.status = "error" ∧ entry.message = m)) :=
  run_sync_last_run_timestamp envNow2 connInfluxA [] (by decide) rfl

/-- Helper: no engine dispatch ever raises with the message "unsupported
pair"; the four possible messages are the two script-failure messages and
the two NotImplementedError messages. -/
theorem dispatchSync_error_ne_unsupported (env : SyncEnv) (a b : String) (s t : Endpoint)
    (e : String) (h : dispatchSync env a b s t = .error e) : e ≠ "unsupported pair" := by
  have h16 : ("unsupported pair" : String).length = 16 := by decide
  unfold dispatchSync at h
  split at h
  · split at h
    · unfold sync_mysql_to_mysql at h
      split at h
      · injection h with h2
        subst h2
        intro hc
        apply_fun String.length at hc
        rw [String.length_append] at hc
        have h19 : ("MySQL sync failed: " : String).length = 19 := by decide
        omega
      · cases h
    · split at h
      · unfold sync_postgresql_to_postgresql at h
        split at h
        · injection h with h2
          subst h2
          intro hc
          apply_fun String.length at hc
          rw [String.length_append] at hc
          have h24 : ("PostgreSQL sync failed: " : String).length = 24 := by decide
          omega
        · cases h
      · split at h
        · unfold sync_influxdb_to_influxdb at h
          injection h with h2
          subst h2
          decide
        · cases h
  · unfold sync_generic at h
    injection h with h2
    subst h2
    intro hc
    apply_fun String.length at hc
    rw [String.length_append, String.length_append, String.length_append,
      String.length_append] at hc
    have hA : ("Generic sync from " : String).length = 18 := by decide
    have hB : (" to " : String).length = 4 := by decide
    have hC : (" not fully implemented yet" : String).length = 26 := by decide
    omega

/-- Helper: a raw lowered type in the two Postgres spellings normalizes to
"postgresql", is non-empty, and is on the supported list. -/
theorem pg_type_facts (s : String) (hs : s ∈ (["postgresql", "postgres"] : List String)) :
    normType s = "postgresql" ∧ s ≠ "" ∧ s ∈ supportedTypes := by
  simp only [List.mem_cons, List.not_mem_nil, or_false] at hs
  rcases hs with rfl | rfl
  · exact ⟨by decide, by decide, by decide⟩
  · exact ⟨by decide, by decide, by decide⟩

/-- Claim C4 (counterexample): the same-engine MySQL pair is fully
implemented — with a zero exit code from the sync script, `_run_sync`
records a success, performing the transfer rather than yielding the error
"unsupported pair" the claim requires for every non-Postgres pair. -/
theorem mysql_pair_fully_implemented_cex :
    run_sync envNow2 connHourlyMysql [] =
        Except.ok (RunOutcome.wroteSuccess, [("A", ⟨"success", 2, ""⟩)])
      ∧ RunOutcome.wroteSuccess ≠ RunOutcome.wroteError "unsupported pair" := by
  constructor <;> decide

/-- Claim C4 (amended): same-engine MySQL and Postgres pairs are both
implemented through external scripts and both can succeed; the same-engine
InfluxDB pair and every mixed-engine pair record a status of error whose
message is the corresponding NotImplementedError text; no run ever records
the message "unsupported pair"; and a pair failing validation (missing or
unrecognized engine type) records nothing at all. -/
theorem run_sync_pair_dispatch_behavior (env : SyncEnv) (conn : ConnDict) (file : StatusFile) :
    (∀ out f2, run_sync env conn file = Except.ok (out, f2) →
      out ≠ RunOutcome.wroteError "unsupported pair")
    ∧ (strToLower (conn.source.dbtype.getD "") = "influxdb" →
       strToLower (conn.target.dbtype.getD "") = "influxdb" →
       run_sync env conn file = Except.ok (.wroteError "InfluxDB sync not fully implemented yet",
         update_sync_status env.statusWriteOk file (connNameOf conn) "error"
           "InfluxDB sync not fully implemented yet" env.now))
    ∧ (strToLower (conn.source.dbtype.getD "") = "mysql" →
       strToLower (conn.target.dbtype.getD "") = "mysql" →
       env.mysqlScript.returncode = 0 →
       run_sync env conn file = Except.ok (.wroteSuccess,
         update_sync_status env.statusWriteOk file (connNameOf conn) "success" "" env.now))
    ∧ (strToLower (conn.source.dbtype.getD "") ∈ (["postgresql", "postgres"] : List String) →
       strToLower (conn.target.dbtype.getD "") ∈ (["postgresql", "postgres"] : List String) →
       env.pgScript.returncode = 0 →
       run_sync env conn file = Except.ok (.wroteSuccess,
         update_sync_status env.statusWriteOk file (connNameOf conn) "success" "" env.now))
    ∧ (validationOk conn = true →
       normType (strToLower (conn.source.dbtype.getD ""))
           ≠ normType (strToLower (conn.target.dbtype.getD "")) →
       run_sync env conn file = Except.ok (.wroteError
           ("Generic sync from " ++ strToLower (conn.source.dbtype.getD "") ++ " to "
             ++ strToLower (conn.target.dbtype.getD "") ++ " not fully implemented yet"),
         update_sync_status env.statusWriteOk file (connNameOf conn) "error"
           ("Generic sync from " ++ strToLower (conn.source.dbtype.getD "") ++ " to "
             ++ strToLower (conn.target.dbtype.getD "") ++ " not fully implemented yet") env.now))
    ∧ (validationOk conn = false →
       ∃ out, run_sync env conn file = Except.ok (out, file)) := by
  refine ⟨?_, ?_, ?_, ?_, ?_, ?_⟩
  · intro out f2 h
    rw [run_sync_spec] at h
    by_cases hv : validationOk conn
    · rw [if_pos hv] at h
      revert h
      split
      · rename_i e heq
        intro h
        simp only [Except.ok.injEq, Prod.mk.injEq] at h
        obtain ⟨h4, h5⟩ := h
        subst h4
        simp only [ne_eq, RunOutcome.wroteError.injEq]
        exact dispatchSync_error_ne_unsupported env _ _ conn.source conn.target e heq
      · intro h
        simp only [Except.ok.injEq, Prod.mk.injEq] at h
        obtain ⟨h4, h5⟩ := h
        subst h4
        simp
    · rw [if_neg hv] at h
      simp only [Except.ok.injEq, Prod.mk.injEq] at h
      obtain ⟨h4, h5⟩ := h
      subst h4
      split <;> simp
  · intro hs ht
    have hv : validationOk conn = true := by
      simp only [validationOk, hs, ht]
      decide
    rw [run_sync_spec, hv, if_pos rfl, hs, ht]
    simp [normType, dispatchSync, sync_influxdb_to_influxdb]
  · intro hs ht hr
    have hv : validationOk conn = true := by
      simp only [validationOk, hs, ht]
      decide
    rw [run_sync_spec, hv, if_pos rfl, hs, ht]
    simp [normType, dispatchSync, sync_mysql_to_mysql, hr]
  · intro hs ht hr
    obtain ⟨hns, hnes, hms⟩ := pg_type_facts _ hs
    obtain ⟨hnt, hnet, hmt⟩ := pg_type_facts _ ht
    have hv : validationOk conn = true := by
      simp only [validationOk]
      rw [if_neg (by rintro (h | h); exacts [hnes h, hnet h]),
        if_neg (not_not_intro ⟨hms, hmt⟩)]
    rw [run_sync_spec, hv, if_pos rfl, hns, hnt]
    simp [dispatchSync, sync_postgresql_to_postgresql, hr]
  · intro hv hne
    rw [run_sync_spec, hv, if_pos rfl]
    unfold dispatchSync
    rw [if_neg hne]
    simp [sync_generic]
  · intro hv
    rw [run_sync_spec]
    rw [if_neg (by simp [hv])]
    exact ⟨_, rfl⟩

/-- Witness for the amended C4 theorem: the concrete InfluxDB pair records
the NotImplementedError message, and the concrete Postgres pair (with a
zero script exit code) records a success. -/
theorem run_sync_pair_dispatch_behavior_witness :
    run_sync envNow2 connInfluxA [] =
        Except.ok (.wroteError "InfluxDB sync not fully implemented yet",
          update_sync_status envNow2.statusWriteOk [] (connNameOf connInfluxA) "error"
            "InfluxDB sync not fully implemented yet" envNow2.now)
      ∧ run_sync envNow2 connPgPair [] =
        Except.ok (.wroteSuccess,
          update_sync_status envNow2.statusWriteOk [] (connNameOf connPgPair)
            "success" "" envNow2.now) :=
  ⟨(run_sync_pair_dispatch_behavior envNow2 connInfluxA []).2.1 (by decide) (by decide),
   (run_sync_pair_dispatch_behavior envNow2 connPgPair []).2.2.2.1 (by decide) (by decide) rfl⟩

/-- Helper: a list without the separator makes `splitFirst` return `none`. -/
theorem splitFirst_eq_none_of_not_mem (sep : Char) (l : List Char) (h : sep ∉ l) :
    splitFirst sep l = none := by
  induction l with
  | nil => rfl
  | cons c rest ih =>
    simp only [List.mem_cons, not_or] at h
    obtain ⟨h1, h2⟩ := h
    simp only [splitFirst]
    rw [if_neg (fun hc => h1 hc.symm), ih h2]

/-- Claim C8: the vault decrypt treats the empty ciphertext as no secret
(returning the empty plaintext), returns a separator-free ciphertext
unmodified (legacy plaintext branch), and turns the well-formed 16-byte-hex
IV with corrupt payload "deadbeefdeadbeefdeadbeefdeadbeef:00" into a
`decryptionError` value rather than a crash — for every block cipher. -/
theorem decrypt_edge_cases (blockDec : List Nat → List Nat) :
    decrypt blockDec "" = DecryptResult.plain ""
    ∧ (∀ s : String, ':' ∉ s.data → decrypt blockDec s = DecryptResult.plain s)
    ∧ decrypt blockDec "deadbeefdeadbeefdeadbeefdeadbeef:00" = DecryptResult.decryptionError := by
  refine ⟨rfl, ?_, ?_⟩
  · intro s hs
    by_cases hd : s.data = []
    · have hempty : s = "" := by
        cases s
        simp_all
      rw [hempty]
      rfl
    · simp only [decrypt]
      rw [if_neg hd, splitFirst_eq_none_of_not_mem ':' s.data hs]
  · rfl

/-- Witness for the C8 theorem: the three decrypt facts at the identity
block cipher, with "secret" as the separator-free legacy value. -/
theorem decrypt_edge_cases_witness :
    decrypt (fun bs => bs) "" = DecryptResult.plain ""
      ∧ decrypt (fun bs => bs) "secret" = DecryptResult.plain "secret"
      ∧ decrypt (fun bs => bs) "deadbeefdeadbeefdeadbeefdeadbeef:00"
        = DecryptResult.decryptionError :=
  ⟨(decrypt_edge_cases (fun bs => bs)).1,
   (decrypt_edge_cases (fun bs => bs)).2.1 "secret" (by decide),
   (decrypt_edge_cases (fun bs => bs)).2.2⟩

/-- Helper: the startup epilogue never changes the registry on a normal
return. -/
theorem run_on_startup_check_ok_registry (env : SyncEnv) (conn : ConnDict)
    (registry r2 : List JobClosure) (file f2 : StatusFile)
    (h : run_on_startup_check env conn registry file = Except.ok (r2, f2)) : r2 = registry := by
  unfold run_on_startup_check at h
  split at h
  · split at h
    · simp only [Except.ok.injEq, Prod.mk.injEq] at h
      exact h.1.symm
    · exact Except.noConfusion h
  · simp only [Except.ok.injEq, Prod.mk.injEq] at h
    exact h.1.symm

/-- Helper: a normal return of `_setup_connection_job` leaves the registry
exactly as it was — no branch registers a job. -/
theorem setup_connection_job_ok_registry (env : SyncEnv) (conn : ConnDict)
    (registry r2 : List JobClosure) (file f2 : StatusFile)
    (h : setup_connection_job env conn registry file = Except.ok (r2, f2)) : r2 = registry := by
  simp only [setup_connection_job] at h
  split at h
  · exact Except.noConfusion h
  · split at h
    · exact Except.noConfusion h
    · split at h
      · split at h
        · exact Except.noConfusion h
        · exact run_on_startup_check_ok_registry env conn registry r2 file f2 h
      · split at h
        · exact Except.noConfusion h
        · split at h
          · exact run_on_startup_check_ok_registry env conn registry r2 file f2 h
          · exact run_on_startup_check_ok_registry env conn registry r2 file f2 h

/-- Helper: the `setup_jobs` loop returns the registry it was given. -/
theorem setup_jobs_loop_registry (env : SyncEnv) (l : List ConnDict) :
    ∀ (registry : List JobClosure) (file : StatusFile),
      (setup_jobs_loop env l registry file).1 = registry := by
  induction l with
  | nil =>
    intro registry file
    rfl
  | cons c rest ih =>
    intro registry file
    simp only [setup_jobs_loop]
    split
    · split
      · rename_i r2 f2 heq
        rw [ih]
        exact setup_connection_job_ok_registry env c registry r2 file f2 heq
      · exact ih registry file
    · exact ih registry file

/-- Helper: an absent or string-valued "type" entry lowers without raising. -/
theorem pyLower_ok_of_isStrTyped (o : Option PyVal) (h : isStrTyped o = true) :
    ∃ a, pyLower (o.getD (PyVal.str "")) = Except.ok a := by
  cases o with
  | none => exact ⟨_, rfl⟩
  | some p =>
    cases p with
    | str s => exact ⟨_, rfl⟩
    | noneVal => simp [isStrTyped] at h
    | intVal n => simp [isStrTyped] at h

/-- Claim C2 (counterexample): scheduling the enabled hourly task does not
create a job that could later fire with any descriptor: the first
schedule-library call `scheduler.every()` (line 160) raises AttributeError
on the APScheduler object, `_setup_connection_job` aborts, and the registry
keeps only the metric collector — so the next fire the claim reasons about
(using freshly re-resolved task fields) never happens. -/
theorem sync_job_scheduling_raises_cex :
    setup_connection_job envNow2 connHourlyMysql [JobClosure.metricCollector] []
      = Except.error (attributeError "every") := by
  rfl

/-- Claim C2 (amended): the Sync Executor is never invoked from a scheduled
fire at all — every normal return of `_setup_connection_job` leaves the
scheduler registry unchanged (and the remaining branches raise), so no sync
job is ever registered; and the line-157 closure that registration would
have stored executes `_run_sync` on the connection dictionary captured at
scheduling time, not a descriptor re-resolved by id. -/
theorem setup_never_registers_sync_job :
    (∀ (env : SyncEnv) (conn : ConnDict) (registry r2 : List JobClosure) (file f2 : StatusFile),
        setup_connection_job env conn registry file = Except.ok (r2, f2) → r2 = registry)
    ∧ (∀ (env : SyncEnv) (conn : ConnDict) (file f2 : StatusFile) (out : RunOutcome),
        run_sync env conn file = Except.ok (out, f2) →
        callClosure env (job_function conn) file = Except.ok (some out, f2)) := by
  constructor
  · intro env conn registry r2 file f2 h
    exact setup_connection_job_ok_registry env conn registry r2 file f2 h
  · intro env conn file f2 out h
    simp only [callClosure, job_function, h]

/-- Witness for the amended C2 theorem: a "never"-frequency setup returns
normally with the registry untouched, and the captured-snapshot closure of
the MySQL connection runs that exact connection. -/
theorem setup_never_registers_sync_job_witness :
    setup_connection_job envNow2 connNeverFreq [JobClosure.metricCollector] []
        = Except.ok ([JobClosure.metricCollector], [])
      ∧ [JobClosure.metricCollector] = [JobClosure.metricCollector]
      ∧ callClosure envNow2 (job_function connHourlyMysql) []
        = Except.ok (some RunOutcome.wroteSuccess, [("A", ⟨"success", 2, ""⟩)]) :=
  ⟨by rfl,
   setup_never_registers_sync_job.1 envNow2 connNeverFreq [JobClosure.metricCollector]
     [JobClosure.metricCollector] [] [] (by rfl),
   setup_never_registers_sync_job.2 envNow2 connHourlyMysql [] [("A", ⟨"success", 2, ""⟩)]
     RunOutcome.wroteSuccess (by decide)⟩

/-- Claim C6 (counterexample): a reconciliation pass over the enabled weekly
task raises AttributeError at `scheduler.clear()` and leaves the registry as
it was (here: only the metric collector) — the live job set does not become
the derived one-task job set. -/
theorem reconciliation_pass_raises_cex :
    reload_config envNow2 cfgWeekly [JobClosure.metricCollector] []
      = Except.error (attributeError "clear") := by
  rfl

/-- Claim C6 (amended): a reconciliation pass never reconciles anything —
`_reload_config` raises AttributeError at `scheduler.clear()` before
mutating the registry, for every task set; and even the startup `setup_jobs`
path returns the registry unchanged, so the live job set never equals the
set derived from the enabled non-never tasks (it simply stays what it
was, containing no sync jobs). -/
theorem reload_config_never_reconciles (env : SyncEnv) (cfg : SyncSettings)
    (registry : List JobClosure) (file : StatusFile) :
    reload_config env cfg registry file = Except.error (attributeError "clear")
    ∧ (setup_jobs env cfg registry file).1 = registry := by
  constructor
  · rfl
  · simp only [setup_jobs]
    split
    · rfl
    · split
      · rfl
      · exact setup_jobs_loop_registry env _ registry file

/-- Claim C7 (counterexample): the daily frequency does not map to a 02:00
trigger (or any trigger): `_setup_connection_job` raises AttributeError at
`scheduler.every()`; and the unhandled frequency "never" neither raises nor
warns — it returns normally with the registry unchanged. -/
theorem daily_schedule_raises_cex :
    setup_connection_job envNow2 connDaily5 [JobClosure.metricCollector] []
        = Except.error (attributeError "every")
      ∧ setup_connection_job envNow2 connNeverFreq [JobClosure.metricCollector] []
        = Except.ok ([JobClosure.metricCollector], []) := by
  constructor <;> rfl

/-- Claim C7 (amended): no frequency maps to a trigger — hourly, daily and
monthly raise AttributeError at `scheduler.every()` (the exception leaving
`_setup_connection_job`), weekly raises as soon as one configured day lies
in 1..7, the custom branch catches the same error internally, and every
other frequency string (including "never") falls through silently; every
normal return leaves the scheduler registry unchanged. -/
theorem frequency_trigger_mapping_none (env : SyncEnv) (conn : ConnDict)
    (registry : List JobClosure) (file : StatusFile) :
    (conn.schedule.frequency.getD "daily" ∈ (["hourly", "daily", "monthly"] : List String) →
      setup_connection_job env conn registry file = Except.error (attributeError "every"))
    ∧ (conn.schedule.frequency.getD "daily" = "weekly" →
        (conn.schedule.days.getD [1]).any (fun d => decide (1 ≤ d ∧ d ≤ 7)) = true →
        setup_connection_job env conn registry file = Except.error (attributeError "every"))
    ∧ (∀ (r2 : List JobClosure) (f2 : StatusFile),
        setup_connection_job env conn registry file = Except.ok (r2, f2) → r2 = registry) := by
  refine ⟨?_, ?_, ?_⟩
  · intro hf
    simp only [List.mem_cons, List.not_mem_nil, or_false] at hf
    rcases hf with hf | hf | hf <;> simp [setup_connection_job, hf]
  · intro hf hany
    simp only [setup_connection_job, hf]
    rw [if_neg (by decide), if_neg (by decide), if_pos trivial, if_pos hany]
  · intro r2 f2 h
    exact setup_connection_job_ok_registry env conn registry r2 file f2 h

/-- Witness for the amended C7 theorem: the monthly connection raises the
AttributeError concretely. -/
theorem frequency_trigger_mapping_none_witness :
    setup_connection_job envNow2 connMonthlyCfg [JobClosure.metricCollector] []
      = Except.error (attributeError "every") :=
  (frequency_trigger_mapping_none envNow2 connMonthlyCfg [JobClosure.metricCollector] []).1
    (by decide)

/-- Claim C10 (counterexample): a connection whose source dictionary holds a
non-string "type" value (the None of a YAML `type:` key) is within the
hypothesis of the claim (source, target and options are dicts), yet
`_run_sync` raises: the `.lower()` at line 239 runs before the `try` block,
so the AttributeError propagates to the caller. -/
theorem run_sync_none_type_raises_cex :
    run_sync_dyn envNow2 connNoneType []
      = Except.error "AttributeError: NoneType object has no attribute lower" := by
  rfl

/-- Claim C10 (amended): `_run_sync` returns normally — every enumerated
error path (missing or unsupported engine type, an engine sync raising, a
status-write failure) handled internally — provided every present "type"
entry of the connection holds a string; a present non-string value makes
line 239 raise before the `try` and the exception propagates. -/
theorem run_sync_dyn_total_when_string_typed (env : SyncEnv) (conn : ConnDictDyn)
    (file : StatusFile) (hs : isStrTyped conn.source.dbtype = true)
    (ht : isStrTyped conn.target.dbtype = true) :
    ∃ v, run_sync_dyn env conn file = Except.ok v := by
  obtain ⟨a, ha⟩ := pyLower_ok_of_isStrTyped _ hs
  obtain ⟨b, hb⟩ := pyLower_ok_of_isStrTyped _ ht
  simp only [run_sync_dyn, ha, hb]
  split
  · exact ⟨_, rfl⟩
  · split
    · exact ⟨_, rfl⟩
    · split
      · exact ⟨_, rfl⟩
      · exact ⟨_, rfl⟩

/-- Witness for the amended C10 theorem: the string-typed MySQL pair runs to
a normal return. -/
theorem run_sync_dyn_total_when_string_typed_witness :
    ∃ v, run_sync_dyn envNow2 connDynMysql [] = Except.ok v :=
  run_sync_dyn_total_when_string_typed envNow2 connDynMysql [] rfl rfl

end MoleSync
